import Mathlib

set_option linter.unusedVariables false

/-!
Shallow embedding of the Bangalore News RAG chatbot core, translated from
`display_app/views.py` and `rag_core/rag_pipeline.py`, together with proofs
of the specification claims about it.

Python strings are modelled as Lean `String`; Python lists as Lean `List`;
Python dict lookup `d.get(k)` on the static agent registry as association
lists with `List.lookup`. External services (the sentence-transformer
embedding model, the FAISS index search, the OpenAI chat completion call)
are black boxes in the source and appear here as explicit function
parameters; an `Except` result models a call that may raise a Python
exception, caught by the surrounding `try/except` blocks.
-/

/-- A retrieved chunk as produced by `RAGPipeline.retrieve_relevant_chunks`:
a Python dict with the single key `chunk_text` holding one passage text. -/
structure RetrievedChunk where
  chunk_text : String
deriving DecidableEq, Repr

/-- One entry of the `AGENT_CONFIGS` dictionary in `display_app/views.py`. -/
structure AgentConfig where
  display_name : String
  system_prompt : String
  keywords_for_filtering : List String
deriving DecidableEq, Repr

/-- System prompt of the `general_news` agent, accessed in `home_view` via
`AGENT_CONFIGS["general_news"]["system_prompt"]` (views.py lines 30-35 and 153). -/
def GENERAL_NEWS_SYSTEM_PROMPT : String :=
  "You are a helpful AI assistant providing concise and factual summaries based on Bangalore news. Answer the question based ONLY on the provided context. If the context doesn\x27t contain the answer, state that the information is not available in the provided documents. Do not make up information."

/-- The `general_news` entry of `AGENT_CONFIGS` (views.py lines 28-37). -/
def general_news_config : AgentConfig :=
  { display_name := "General News Reporter"
    system_prompt := GENERAL_NEWS_SYSTEM_PROMPT
    keywords_for_filtering := [] }

/-- The `education_news` entry of `AGENT_CONFIGS` (views.py lines 38-52). -/
def education_news_config : AgentConfig :=
  { display_name := "Education & Campus News"
    system_prompt := "You are an \x27Education & Campus News\x27 assistant for Bangalore. Based ONLY on the provided news context, answer questions about schools, colleges, university announcements, educational policy changes, exams, or significant campus events. If the news context doesn\x27t have this information, state so."
    keywords_for_filtering :=
      ["school", "college", "university", "student", "exam", "admission", "syllabus",
       "education policy", "campus", "sslc", "puc", "results", "academic", "board",
       "institution", "degree", "semester", "curriculum", "faculty", "research"] }

/-- The `bangalore_weather` entry of `AGENT_CONFIGS` (views.py lines 53-60). -/
def bangalore_weather_config : AgentConfig :=
  { display_name := "Bangalore Weather Watch (News-Based)"
    system_prompt := "You are \x27Bangalore Weather Watch.\x27 Report ONLY on significant weather events or official advisories for Bangalore found in the provided news context. Do not provide live forecasts or general weather knowledge. If no relevant news is in the context, state that."
    keywords_for_filtering :=
      ["weather", "rain", "rainfall", "temperature", "heatwave", "monsoon", "imd",
       "forecast", "climate", "humidity", "cyclone", "storm", "flood", "dry spell"] }

/-- The `local_safety` entry of `AGENT_CONFIGS` (views.py lines 61-75). -/
def local_safety_config : AgentConfig :=
  { display_name := "Local Safety Reporter"
    system_prompt := "You are a \x27Local Safety Reporter\x27 for Bangalore. Your role is to provide factual information based ONLY on the provided news context about reported crime incidents, accidents, and public safety announcements. Be objective and stick strictly to the details in the reports. If the context does not contain relevant safety information for the query, state that."
    keywords_for_filtering :=
      ["police", "arrest", "crime", "theft", "accident", "safety", "alert", "fir",
       "assault", "scam", "fraud", "emergency", "complaint", "victim", "investigation",
       "security", "patrol", "incident"] }

/-- The `community_corner` entry of `AGENT_CONFIGS` (views.py lines 76-87). -/
def community_corner_config : AgentConfig :=
  { display_name := "Community Corner"
    system_prompt := "You are \x27Community Corner,\x27 an AI assistant highlighting local community news and events in Bangalore based ONLY on the provided news context. Report on events, festivals, initiatives, and community activities. If the context lacks this information, state that."
    keywords_for_filtering :=
      ["community", "event", "festival", "celebration", "initiative", "local", "group",
       "organization", "volunteer", "fair", "gathering", "activity", "workshop", "public"] }

/-- The `public_transport` entry of `AGENT_CONFIGS` (views.py lines 88-102). -/
def public_transport_config : AgentConfig :=
  { display_name := "Public Transport Pulse"
    system_prompt := "You are \x27Public Transport Pulse,\x27 an AI specializing in Bangalore\x27s public transportation news. Using ONLY the provided news context, answer questions about Namma Metro or BMTC buses, including reported service updates, new routes, planned expansions, significant disruptions, or fare changes. If the context has no relevant public transport news for the query, clearly state that."
    keywords_for_filtering :=
      ["metro", "namma metro", "bmrcl", "bmtc", "bus", "public transport", "commute",
       "commuters", "fare", "route", "station", "transportation", "service", "feeder service",
       "last mile", "depot", "corridor", "line"] }

/-- The `AGENT_CONFIGS` dictionary of `display_app/views.py` (lines 27-104),
as an association list keyed by agent id. -/
def AGENT_CONFIGS : List (String × AgentConfig) :=
  [("general_news", general_news_config),
   ("education_news", education_news_config),
   ("bangalore_weather", bangalore_weather_config),
   ("local_safety", local_safety_config),
   ("community_corner", community_corner_config),
   ("public_transport", public_transport_config)]

/-- Python dict access `AGENT_CONFIGS.get(agent_id)`: `none` models Python `None`. -/
def lookupAgent (agent_id : String) : Option AgentConfig :=
  AGENT_CONFIGS.lookup agent_id

/-- Python `s.lower()`: lower-case the string character by character (the
source only ever lower-cases ASCII keyword and news text, where the Python
and the per-character ASCII behaviour coincide). -/
def pyLower (s : String) : String :=
  ⟨s.data.map Char.toLower⟩

/-- Python substring membership `needle in hay` on strings: some contiguous
run of characters of `hay` equals `needle` (true for the empty needle). -/
def pyIn (needle hay : String) : Bool :=
  hay.data.tails.any (fun t => needle.data.isPrefixOf t)

/-- Translation of `get_specialized_context_for_agent` (views.py lines 106-125):
look up the agent config; when the agent is unknown or its keyword list is
empty, return the first `top_n` chunks; otherwise keep the chunks whose
lower-cased text contains some lower-cased keyword and return the first
`top_n` of those. -/
def get_specialized_context_for_agent (query_text : String) (agent_id : String)
    (all_chunks : List RetrievedChunk) (top_n : Nat := 3) : List RetrievedChunk :=
  match lookupAgent agent_id with
  | none => all_chunks.take top_n
  | some agent_config =>
    if agent_config.keywords_for_filtering.isEmpty then
      all_chunks.take top_n
    else
      let keywords := agent_config.keywords_for_filtering.map pyLower
      let filtered_chunks := all_chunks.filter (fun chunk =>
        keywords.any (fun keyword => pyIn keyword (pyLower chunk.chunk_text)))
      filtered_chunks.take top_n

example : pyIn "bus" "bmtc bus fare revised" = true := by decide

example :
    get_specialized_context_for_agent "q" "public_transport"
      [⟨"BMTC bus fare revised"⟩, ⟨"cricket match"⟩] 3
      = [⟨"BMTC bus fare revised"⟩] := by decide

/-- The fixed fallback answer of `home_view` (views.py line 157), returned when
the specialized context is empty. -/
def FALLBACK_MSG : String :=
  "I\x27m sorry, I couldn\x27t find relevant information in the news for your query, even with the selected agent\x27s focus."

/-- The context selection step of `home_view` (views.py lines 143-152): for a
non-general agent, apply `get_specialized_context_for_agent` with `top_n = 3`;
for the general agent, take the first 3 retrieved chunks directly. -/
def specialized_context_in_home_view (selected_agent_id : String)
    (user_query : String) (retrieved_chunks : List RetrievedChunk) :
    List RetrievedChunk :=
  if selected_agent_id ≠ "general_news" then
    get_specialized_context_for_agent user_query selected_agent_id retrieved_chunks 3
  else
    retrieved_chunks.take 3

/-- Translation of the query-processing body of `home_view` (views.py lines
134-160), for a POST request with a non-empty query. `rag_retrieve` models
the bound method `rag_pipeline.retrieve_relevant_chunks` (called with
`top_k = 7`); `gen` models `rag_pipeline.generate_answer_with_llm`;
`agent_persona_field` is the raw `agent_persona` POST field, defaulted to
`general_news` by `request.POST.get` when absent. The result `none` models an
uncaught Python exception: for a selected agent id that is neither
`general_news` nor a key of `AGENT_CONFIGS`, line 148 binds `agent_config` to
`None` and line 149 evaluates `None.get("system_prompt")`, which raises
`AttributeError`. -/
def home_view_answer (rag_retrieve : String → Nat → List RetrievedChunk)
    (gen : String → List RetrievedChunk → String → String)
    (agent_persona_field : Option String) (user_query : String) : Option String :=
  let selected_agent_id := agent_persona_field.getD "general_news"
  let retrieved_chunks := rag_retrieve user_query 7
  let specialized_context :=
    specialized_context_in_home_view selected_agent_id user_query retrieved_chunks
  let system_prompt? : Option String :=
    if selected_agent_id ≠ "general_news" then
      (lookupAgent selected_agent_id).map AgentConfig.system_prompt
    else
      some GENERAL_NEWS_SYSTEM_PROMPT
  match system_prompt? with
  | none => none
  | some system_prompt =>
    if specialized_context.isEmpty then
      some FALLBACK_MSG
    else
      some (gen user_query specialized_context system_prompt)

/-- Behaviour of the loaded FAISS index together with the query embedding step
(rag_pipeline.py lines 139-141): a query and a `top_k` yield the row `I[0]`
of raw positions (FAISS positions are machine integers and may be negative,
e.g. `-1` padding). An `error` result models a Python exception raised inside
the `try` block of `retrieve_relevant_chunks`. -/
def SearchFun : Type := String → Nat → Except String (List Int)

/-- The component state of a `RAGPipeline` instance: `data` is the `content`
column of `self.data` (empty list models an empty DataFrame), `model` is the
sentence-transformer handle or `None`, `index` is the FAISS index or `None`. -/
structure RAGState where
  data : List String
  model : Option Unit
  index : Option SearchFun

/-- The warning printed by `retrieve_relevant_chunks` when the pipeline is not
fully ready (rag_pipeline.py line 136). -/
def NOT_READY_WARNING : String :=
  "Retrieval Warning: RAG Pipeline not fully initialized (index/data/model is None)."

/-- The loop of `retrieve_relevant_chunks` over the raw FAISS positions
(rag_pipeline.py lines 142-149): an in-bounds position contributes the
corresponding `content` cell as a chunk; an out-of-bounds position is skipped
and contributes a warning line instead. Returns the chunk list and the list
of warnings, each in iteration order. -/
def retrieveLoop (data : List String) : List Int → List RetrievedChunk × List String
  | [] => ([], [])
  | idx :: rest =>
    let tail := retrieveLoop data rest
    if 0 ≤ idx ∧ idx < (data.length : Int) then
      (⟨data.getD idx.toNat ""⟩ :: tail.1, tail.2)
    else
      (tail.1,
        ("Retrieval Warning: Index " ++ toString idx ++
          " from FAISS is out of data bounds (size " ++ toString data.length ++ ").")
        :: tail.2)

/-- Translation of `RAGPipeline.retrieve_relevant_chunks` (rag_pipeline.py
lines 133-154). Returns the chunk list together with the warnings printed. If
the index, data, or model is missing, it returns no chunks and the not-ready
warning; if the embedding or search call raises, the `except` clause returns
no chunks; otherwise it maps the returned positions through `retrieveLoop`. -/
def retrieve_relevant_chunks (st : RAGState) (query : String) (top_k : Nat := 5) :
    List RetrievedChunk × List String :=
  match st.index with
  | none => ([], [NOT_READY_WARNING])
  | some search =>
    if st.data.isEmpty || st.model.isNone then
      ([], [NOT_READY_WARNING])
    else
      match search query top_k with
      | .error e => ([], ["ERROR: An error occurred during chunk retrieval: " ++ e])
      | .ok positions => retrieveLoop st.data positions

/-- Translation of `RAGPipeline._initialize_components` (rag_pipeline.py lines
25-43) over the results of the three loaders: `load_data_result` is the
`content` column produced by `_load_data` (which returns an empty DataFrame,
here `[]`, on any failure, including a missing CSV file); the model and index
loader results are consulted only if the previous stage succeeded, so a
failed stage leaves the later components as `None`. -/
def init_components (load_data_result : List String) (load_model_result : Option Unit)
    (load_index_result : Option SearchFun) : RAGState :=
  let data := load_data_result
  if data.isEmpty then
    { data := data, model := none, index := none }
  else
    match load_model_result with
    | none => { data := data, model := none, index := none }
    | some m => { data := data, model := some m, index := load_index_result }

/-- The configuration-error answer of `generate_answer_with_llm`
(rag_pipeline.py line 161). -/
def CONFIG_ERROR_MSG : String :=
  "Error: OpenAI API key is not configured. Please set OPENAI_API_KEY in settings.py or as an environment variable."

/-- Python `s.strip()`: remove leading and trailing whitespace. -/
def pyStrip (s : String) : String :=
  ⟨((s.data.dropWhile Char.isWhitespace).reverse.dropWhile Char.isWhitespace).reverse⟩

/-- Translation of `RAGPipeline.generate_answer_with_llm` (rag_pipeline.py
lines 156-182). `openai_api_key` models `settings.OPENAI_API_KEY`, with `""`
standing for any falsy value (empty or unset credential).
`chat_completion_call` models the OpenAI chat-completion request built from
the system message and the user message (the fixed `llm_model`,
`max_tokens=300` and `temperature=0.3` are absorbed into this black box); an
`error` result models a raised provider exception, caught by the `except`
clause. The function always returns a display string. -/
def generate_answer_with_llm (openai_api_key : String)
    (chat_completion_call : String → String → Except String String)
    (query : String) (retrieved_chunks_info : List RetrievedChunk)
    (system_message_content : String) : String :=
  if openai_api_key = "" ∨ openai_api_key = "YOUR_OPENAI_API_KEY_HERE" then
    CONFIG_ERROR_MSG
  else
    let context_str :=
      if retrieved_chunks_info.isEmpty then "No relevant context found."
      else String.intercalate "\n\n" (retrieved_chunks_info.map RetrievedChunk.chunk_text)
    let user_message :=
      "Based on the following context:\n\nContext:\n" ++ context_str ++
        "\n\nQuestion: " ++ query ++ "\n\nAnswer:"
    match chat_completion_call system_message_content user_message with
    | .ok answer => pyStrip answer
    | .error e =>
      "An error occurred while generating the answer: " ++ e ++
        ". Please check your OpenAI API key and internet connection."

/-- Translation of the row-dropping and re-indexing step of
`RAGPipeline._load_data` (rag_pipeline.py line 80,
`df.dropna(subset=["content"]).reset_index(drop=True)`). A row is modelled by
its `content` cell; `none` models a null (NaN) cell — pandas `read_csv`
parses empty CSV cells as NaN, so the null/empty cells are exactly the
`none`s. `dropna` keeps the rows holding a real string, in order. -/
def load_data_contents (content_cells : List (Option String)) : List String :=
  content_cells.filterMap id

/-- The loaded corpus as passages with their positional ids: after
`reset_index(drop=True)`, row `i` of the frame is the `i`-th kept content
cell, so the passage ids are the new 0-based sequential positions. -/
def load_data_passages (content_cells : List (Option String)) : List (Nat × String) :=
  (load_data_contents content_cells).enum

/-- The specification-side predicate for the persona filter: the chunk text
contains at least one of the keywords as a case-insensitive substring. -/
def matchesKeywordCI (keywords : List String) (text : String) : Prop :=
  ∃ kw ∈ keywords, (pyLower kw).data <:+: (pyLower text).data

instance (keywords : List String) (text : String) :
    Decidable (matchesKeywordCI keywords text) := by
  unfold matchesKeywordCI
  infer_instance

/-- Characterization of `pyIn`: Python substring membership holds exactly when
the needle characters occur contiguously inside the hay. -/
theorem pyIn_eq_true_iff (needle hay : String) :
    pyIn needle hay = true ↔ needle.data <:+: hay.data := by
  unfold pyIn
  rw [List.any_eq_true]
  constructor
  · rintro ⟨t, ht, hpref⟩
    rw [List.mem_tails] at ht
    rw [List.isPrefixOf_iff_prefix] at hpref
    obtain ⟨s, hs⟩ := hpref
    obtain ⟨p, hp⟩ := ht
    exact ⟨p, s, by rw [List.append_assoc, hs, hp]⟩
  · rintro ⟨p, s, hps⟩
    refine ⟨needle.data ++ s, ?_, ?_⟩
    · rw [List.mem_tails]
      exact ⟨p, by rw [← List.append_assoc, hps]⟩
    · rw [List.isPrefixOf_iff_prefix]
      exact ⟨s, rfl⟩

/-- The keyword scan of the persona filter agrees with the specification
predicate on every chunk. -/
theorem keyword_scan_eq_matches (keywords : List String) (text : String) :
    ((keywords.map pyLower).any (fun keyword => pyIn keyword (pyLower text)))
      = decide (matchesKeywordCI keywords text) := by
  rw [Bool.eq_iff_iff, decide_eq_true_eq, List.any_eq_true]
  unfold matchesKeywordCI
  constructor
  · rintro ⟨kw', hkw', hin⟩
    rw [List.mem_map] at hkw'
    obtain ⟨kw, hkwmem, rfl⟩ := hkw'
    exact ⟨kw, hkwmem, (pyIn_eq_true_iff _ _).mp hin⟩
  · rintro ⟨kw, hkwmem, hinf⟩
    exact ⟨pyLower kw, List.mem_map_of_mem _ hkwmem, (pyIn_eq_true_iff _ _).mpr hinf⟩

/-- C1: for every persona with a non-empty keyword set, every retrieved chunk
list and every `top_n`, the persona filter returns exactly the chunks whose
text contains at least one of the persona keywords as a case-insensitive
substring, in input order, truncated to the first `top_n` such chunks. -/
theorem c1_keyword_filter_spec (query_text agent_id : String) (cfg : AgentConfig)
    (all_chunks : List RetrievedChunk) (top_n : Nat)
    (hlook : lookupAgent agent_id = some cfg)
    (hkw : cfg.keywords_for_filtering ≠ []) :
    get_specialized_context_for_agent query_text agent_id all_chunks top_n
      = (all_chunks.filter (fun c =>
          decide (matchesKeywordCI cfg.keywords_for_filtering c.chunk_text))).take top_n := by
  unfold get_specialized_context_for_agent
  rw [hlook]
  have hne : cfg.keywords_for_filtering.isEmpty = false := by
    simp [List.isEmpty_iff, hkw]
  simp only [hne, Bool.false_eq_true, if_false]
  refine congrArg (List.take top_n) (List.filter_congr ?_)
  intro c _
  exact keyword_scan_eq_matches cfg.keywords_for_filtering c.chunk_text

/-- C1 witness: the `public_transport` persona on a two-chunk list keeps
exactly the fare-related chunk. -/
theorem c1_witness :
    lookupAgent "public_transport" = some public_transport_config ∧
    public_transport_config.keywords_for_filtering ≠ [] ∧
    get_specialized_context_for_agent "bus fare" "public_transport"
        [⟨"BMTC bus fare revised"⟩, ⟨"cricket match"⟩] 3
      = ([⟨"BMTC bus fare revised"⟩, ⟨"cricket match"⟩].filter (fun c =>
          decide (matchesKeywordCI public_transport_config.keywords_for_filtering
            c.chunk_text))).take 3 :=
  ⟨rfl, by decide,
    c1_keyword_filter_spec "bus fare" "public_transport" public_transport_config
      [⟨"BMTC bus fare revised"⟩, ⟨"cricket match"⟩] 3 rfl (by decide)⟩

/-- C2: applying the persona filter with a persona whose keyword set is empty
returns exactly the first `top_n` chunks of the input, unchanged. -/
theorem c2_empty_keywords_take (query_text agent_id : String) (cfg : AgentConfig)
    (all_chunks : List RetrievedChunk) (top_n : Nat)
    (hlook : lookupAgent agent_id = some cfg)
    (hkw : cfg.keywords_for_filtering = []) :
    get_specialized_context_for_agent query_text agent_id all_chunks top_n
      = all_chunks.take top_n := by
  unfold get_specialized_context_for_agent
  rw [hlook]
  simp [hkw]

/-- C2 witness: the `general_news` persona has no keywords and the filter
returns the first chunk of a two-chunk list for `top_n = 1`. -/
theorem c2_witness :
    lookupAgent "general_news" = some general_news_config ∧
    general_news_config.keywords_for_filtering = [] ∧
    get_specialized_context_for_agent "q" "general_news" [⟨"a"⟩, ⟨"b"⟩] 1
      = [(⟨"a"⟩ : RetrievedChunk), ⟨"b"⟩].take 1 :=
  ⟨rfl, rfl,
    c2_empty_keywords_take "q" "general_news" general_news_config [⟨"a"⟩, ⟨"b"⟩] 1 rfl rfl⟩

/-- C3: the persona filter is idempotent: filtering an already-filtered,
already-truncated list with the same persona and the same `top_n` leaves it
unchanged. -/
theorem c3_persona_filter_idempotent (query_text agent_id : String)
    (all_chunks : List RetrievedChunk) (top_n : Nat) :
    get_specialized_context_for_agent query_text agent_id
        (get_specialized_context_for_agent query_text agent_id all_chunks top_n) top_n
      = get_specialized_context_for_agent query_text agent_id all_chunks top_n := by
  unfold get_specialized_context_for_agent
  cases hlook : lookupAgent agent_id with
  | none => rw [List.take_take, Nat.min_self]
  | some cfg =>
    by_cases hkw : cfg.keywords_for_filtering.isEmpty
    · simp only [hkw, if_true]
      rw [List.take_take, Nat.min_self]
    · simp only [hkw, Bool.false_eq_true, if_false]
      set f : RetrievedChunk → Bool := fun chunk =>
        (cfg.keywords_for_filtering.map pyLower).any
          (fun keyword => pyIn keyword (pyLower chunk.chunk_text)) with hf
      have hall : ∀ c ∈ (all_chunks.filter f).take top_n, f c = true := by
        intro c hc
        exact (List.mem_filter.mp (List.take_subset _ _ hc)).2
      rw [List.filter_eq_self.mpr hall, List.take_take, Nat.min_self]

/-- C4: when the specialized context computed by `home_view` is empty, the
answer is the fixed fallback message for every possible generator behaviour
`gen`, so the LLM call is never invoked (the short-circuit is in the caller
`home_view`, not in the generator). The hypothesis that the selected agent id
is a configured key matches the upstream caller contract (the form only
offers configured personas). -/
theorem c4_empty_context_fallback
    (gen : String → List RetrievedChunk → String → String)
    (retrieved : List RetrievedChunk) (agent_id user_query : String)
    (hvalid : (lookupAgent agent_id).isSome = true)
    (hempty : specialized_context_in_home_view agent_id user_query retrieved = []) :
    home_view_answer (fun _ _ => retrieved) gen (some agent_id) user_query
      = some FALLBACK_MSG := by
  unfold home_view_answer
  simp only [Option.getD_some]
  by_cases hgen : agent_id = "general_news"
  · simp [hgen, hempty.symm ▸ hempty, specialized_context_in_home_view] at hempty ⊢
    simp [hempty]
  · obtain ⟨cfg, hcfg⟩ := Option.isSome_iff_exists.mp hvalid
    simp [hgen, hcfg, hempty]

/-- C4 witness: the `bangalore_weather` persona filters a single
non-weather chunk away, and `home_view` answers with the fallback message. -/
theorem c4_witness :
    (lookupAgent "bangalore_weather").isSome = true ∧
    specialized_context_in_home_view "bangalore_weather" "kite festival" [⟨"zz"⟩] = [] ∧
    home_view_answer (fun _ _ => [⟨"zz"⟩]) (fun _ _ _ => "LLM OUTPUT")
        (some "bangalore_weather") "kite festival" = some FALLBACK_MSG :=
  ⟨rfl, by decide,
    c4_empty_context_fallback (fun _ _ _ => "LLM OUTPUT") [⟨"zz"⟩]
      "bangalore_weather" "kite festival" rfl (by decide)⟩

/-- C5: in any non-ready pipeline state (missing index, empty data, or
missing model), `retrieve_relevant_chunks` returns the empty chunk list and
only logs the not-ready warning; the guard precedes the fallible search call,
so no exception can reach the caller. -/
theorem c5_not_ready_returns_empty (st : RAGState) (query : String) (top_k : Nat)
    (h : st.index = none ∨ st.data = [] ∨ st.model = none) :
    retrieve_relevant_chunks st query top_k = ([], [NOT_READY_WARNING]) := by
  unfold retrieve_relevant_chunks
  cases hidx : st.index with
  | none => rfl
  | some search =>
    rcases h with h | h | h
    · rw [hidx] at h
      cases h
    · simp [h]
    · simp [h]

/-- C5 witness: a missing CSV file makes `_load_data` return an empty frame,
initialization stops before loading the model and the index, and retrieval
on the resulting state returns no chunks and the warning. -/
theorem c5_witness :
    ((init_components [] (some ()) (some (fun _ _ => .ok []))).index = none ∨
      (init_components [] (some ()) (some (fun _ _ => .ok []))).data = [] ∨
      (init_components [] (some ()) (some (fun _ _ => .ok []))).model = none) ∧
    retrieve_relevant_chunks (init_components [] (some ()) (some (fun _ _ => .ok [])))
        "anything" 5 = ([], [NOT_READY_WARNING]) :=
  ⟨Or.inl rfl,
    c5_not_ready_returns_empty (init_components [] (some ()) (some (fun _ _ => .ok [])))
      "anything" 5 (Or.inl rfl)⟩

/-- The retrieval loop keeps, in order, exactly the in-bounds positions
(mapped to their passage texts) and emits one warning per out-of-bounds
position. -/
theorem retrieveLoop_spec (data : List String) (positions : List Int) :
    (retrieveLoop data positions).1
        = (positions.filter (fun idx =>
            decide (0 ≤ idx ∧ idx < (data.length : Int)))).map
            (fun idx => (⟨data.getD idx.toNat ""⟩ : RetrievedChunk))
      ∧ (retrieveLoop data positions).2.length
        = (positions.filter (fun idx =>
            !decide (0 ≤ idx ∧ idx < (data.length : Int)))).length := by
  induction positions with
  | nil => exact ⟨rfl, rfl⟩
  | cons idx rest ih =>
    simp only [retrieveLoop]
    by_cases hb : 0 ≤ idx ∧ idx < (data.length : Int)
    · have hd : decide (0 ≤ idx ∧ idx < (data.length : Int)) = true := decide_eq_true hb
      have hnot : ¬ (idx < 0 ∨ (data.length : Int) ≤ idx) := by omega
      rw [if_pos hb]
      refine ⟨?_, ?_⟩
      · simp [List.filter_cons, hd, hb, ih.1]
      · simp [List.filter_cons, hd, hnot, ih.2]
    · have hd : decide (0 ≤ idx ∧ idx < (data.length : Int)) = false := decide_eq_false hb
      have hor : idx < 0 ∨ (data.length : Int) ≤ idx := by omega
      rw [if_neg hb]
      refine ⟨?_, ?_⟩
      · simp [List.filter_cons, hd, hb, ih.1]
      · simp [List.filter_cons, hd, hor, ih.2]

/-- C6: in a ready state whose search returns the raw position list
`positions`, the retrieved chunk list consists exactly of the passage texts
at the in-bounds positions (`0 ≤ idx < data.length`), in search order, and
each out-of-bounds position is skipped with one warning instead of causing a
failure. -/
theorem c6_bounds_filter (data : List String) (search : SearchFun)
    (query : String) (top_k : Nat) (positions : List Int)
    (hdata : data ≠ []) (hs : search query top_k = .ok positions) :
    (retrieve_relevant_chunks ⟨data, some (), some search⟩ query top_k).1
        = (positions.filter (fun idx =>
            decide (0 ≤ idx ∧ idx < (data.length : Int)))).map
            (fun idx => (⟨data.getD idx.toNat ""⟩ : RetrievedChunk))
      ∧ (retrieve_relevant_chunks ⟨data, some (), some search⟩ query top_k).2.length
        = (positions.filter (fun idx =>
            !decide (0 ≤ idx ∧ idx < (data.length : Int)))).length := by
  have hred : retrieve_relevant_chunks ⟨data, some (), some search⟩ query top_k
      = retrieveLoop data positions := by
    unfold retrieve_relevant_chunks
    have hne : data.isEmpty = false := by
      simp [List.isEmpty_iff, hdata]
    simp only [hne, Option.isNone_some, Bool.or_self, Bool.false_eq_true, if_false, hs]
  rw [hred]
  exact retrieveLoop_spec data positions

/-- C6 witness: with a two-passage corpus and search positions
`[1, 5, -1, 0]`, retrieval returns the passages at positions 1 and 0 in that
order and two warnings for the out-of-bounds positions 5 and -1. -/
theorem c6_witness :
    (["a", "b"] : List String) ≠ [] ∧
    (fun (_ : String) (_ : Nat) => (Except.ok [1, 5, -1, 0] : Except String (List Int)))
        "bus" 4 = .ok [1, 5, -1, 0] ∧
    ((retrieve_relevant_chunks ⟨["a", "b"], some (),
          some (fun _ _ => .ok [1, 5, -1, 0])⟩ "bus" 4).1
        = (([1, 5, -1, 0] : List Int).filter (fun idx =>
            decide (0 ≤ idx ∧ idx < ((["a", "b"] : List String).length : Int)))).map
            (fun idx => (⟨(["a", "b"] : List String).getD idx.toNat ""⟩ : RetrievedChunk))
      ∧ (retrieve_relevant_chunks ⟨["a", "b"], some (),
          some (fun _ _ => .ok [1, 5, -1, 0])⟩ "bus" 4).2.length
        = (([1, 5, -1, 0] : List Int).filter (fun idx =>
            !decide (0 ≤ idx ∧ idx < ((["a", "b"] : List String).length : Int)))).length) :=
  ⟨by decide, rfl,
    c6_bounds_filter ["a", "b"] (fun _ _ => .ok [1, 5, -1, 0]) "bus" 4 [1, 5, -1, 0]
      (by decide) rfl⟩

/-- C7: with an absent (empty) API credential, the answer generator returns
the fixed configuration-error string for every possible LLM behaviour, every
query, every chunk list and every system prompt, so the LLM is never invoked
and no exception escapes. -/
theorem c7_missing_key_config_error
    (chat_completion_call : String → String → Except String String)
    (query system_message_content : String)
    (retrieved_chunks_info : List RetrievedChunk) :
    generate_answer_with_llm "" chat_completion_call query retrieved_chunks_info
        system_message_content = CONFIG_ERROR_MSG := by
  unfold generate_answer_with_llm
  rw [if_pos (Or.inl rfl)]

/-- C8 (code behaviour at the failing input): the persona id `sports_news` is
not a configured key, and on a POST with that id and a non-empty query
`home_view` raises `AttributeError` (modelled by `none`) at the
`agent_config.get("system_prompt")` lookup instead of defaulting to the
general persona. -/
theorem c8_unrecognized_persona_attribute_error :
    lookupAgent "sports_news" = none ∧
    home_view_answer (fun _ _ => [⟨"Bangalore news item"⟩]) (fun _ _ _ => "llm answer")
        (some "sports_news") "any query" = none :=
  ⟨rfl, rfl⟩

/-- C9: the corpus loader keeps exactly the rows whose content cell is
non-null, in their original relative order, and assigns the kept rows the new
0-based sequential positions `0, 1, ...` as passage ids. -/
theorem c9_load_data_drop_reindex (content_cells : List (Option String)) :
    (load_data_passages content_cells).map Prod.snd
        = (content_cells.filter (fun cell => cell.isSome)).map (fun cell => cell.getD "")
      ∧ (load_data_passages content_cells).map Prod.fst
        = List.range (content_cells.filter (fun cell => cell.isSome)).length := by
  have hfm : load_data_contents content_cells
      = (content_cells.filter (fun cell => cell.isSome)).map (fun cell => cell.getD "") := by
    induction content_cells with
    | nil => rfl
    | cons c rest ih =>
      cases c with
      | none => simpa [load_data_contents] using ih
      | some s => simpa [load_data_contents] using ih
  constructor
  · unfold load_data_passages List.enum
    rw [List.enumFrom_map_snd, hfm]
  · unfold load_data_passages List.enum
    rw [List.enumFrom_map_fst, List.range_eq_range', hfm, List.length_map]

/-- C10: the literal placeholder credential is treated exactly like an absent
credential: the generator returns the configuration-error string for every
possible LLM behaviour, query, chunk list and system prompt. -/
theorem c10_placeholder_key_config_error
    (chat_completion_call : String → String → Except String String)
    (query system_message_content : String)
    (retrieved_chunks_info : List RetrievedChunk) :
    generate_answer_with_llm "YOUR_OPENAI_API_KEY_HERE" chat_completion_call query
        retrieved_chunks_info system_message_content = CONFIG_ERROR_MSG := by
  unfold generate_answer_with_llm
  rw [if_pos (Or.inr rfl)]
